import Mathlib

/-!
Shallow embedding of `src/main.cpp` (ESP32 4-channel relay/metering engine).

The mutable domain state of the program is the global array `Load L[4]`, the
global `double unitPrice`, and the notification log stored in `/notifs.json`
(the program keeps no in-memory copy: every `pushNotification` reads the whole
file, appends one entry and rewrites it, and `clearNotifs` deletes the file).
We model that state as `SysState`: four `Load` records, the price, and the
notification log as a list of (timestamp, text) entries.

Machine floats (`float`/`double`) are modelled as `ℚ`; `unsigned long` counters
as `ℕ`; C `int` as `ℤ`. The monotonic epoch-seconds time source (`time(nullptr)`)
is passed in explicitly as `tnow : ℕ`.

Two entry points are embedded:
* `handleWS` — the WebSocket command processor (lines 146–181), over a message
  record `WSMsg` whose fields are `Option`s: ArduinoJson's `doc["k"] | d`
  defaulting is modelled by `Option.getD`.  It returns the new state together
  with a flag recording whether `saveSettingsToFS()` was invoked.
* `tick` — the once-per-second body of `loop()` (lines 275–309): metering
  accumulation, the usage-limit check, and the timer-expiry check, per channel
  in order, each emitted notification appended to the log.
-/

/-- The per-channel record `struct Load` (main.cpp lines 40–49), with the
field initialisers of the C++ struct as Lean default values. -/
structure Load where
  V : ℚ := 0
  I : ℚ := 0
  P : ℚ := 0
  Wh : ℚ := 0
  cost : ℚ := 0
  relay : Bool := false
  onSecondsToday : ℕ := 0
  usageLimitSeconds : ℕ := 12 * 3600
  timerMinutes : ℤ := 0
  timerEndEpoch : ℕ := 0
  deriving DecidableEq

/-- The boot value of a channel record: every field takes its struct
initialiser (`Load L[4]` is value-initialised at line 50). -/
def initLoad : Load := {}

/-- The whole mutable domain state: the four channel records, the global unit
price, and the notification log (the contents of `/notifs.json`). -/
structure SysState where
  L : Fin 4 → Load
  unitPrice : ℚ
  notifs : List (ℕ × String)
  deriving DecidableEq

/-- The state right after `setup()` with no persisted settings document:
struct defaults, `unitPrice = 8.0`, empty log. -/
def initState : SysState :=
  { L := fun _ => initLoad, unitPrice := 8, notifs := [] }

/-- `pushNotification` (lines 122–143): read the whole log document, append
one `(timestamp, text)` entry, rewrite the document (and broadcast). -/
def pushNotification (tnow : ℕ) (s : String) (st : SysState) : SysState :=
  { st with notifs := st.notifs ++ [(tnow, s)] }

/-- An inbound WebSocket JSON message.  Each field is `none` when the key is
absent from the JSON object; `doc["k"] | d` is modelled as `Option.getD _ d`. -/
structure WSMsg where
  cmd : Option String
  id : Option ℤ
  state : Option Bool
  minutes : Option ℤ
  seconds : Option ℕ
  price : Option ℚ
  deriving DecidableEq

/-- The channel-id validation `id>=1 && id<=4` shared by the `relay`,
`setTimer` and `setLimit` branches, returning the 0-based array index
`id-1` when the check passes. -/
def chIdx (id : ℤ) : Option (Fin 4) :=
  if h : 1 ≤ id ∧ id ≤ 4 then some ⟨(id - 1).toNat, by omega⟩ else none

/-- `handleWS` (lines 146–181): the command processor.  Returns the new state
and whether `saveSettingsToFS()` was called.  A message whose `cmd` key is
absent, whose tag is not one of the five known tags, or whose channel id fails
validation, falls through with no change and no save. -/
def handleWS (tnow : ℕ) (msg : WSMsg) (st : SysState) : SysState × Bool :=
  match msg.cmd with
  | none => (st, false)
  | some c =>
    if c = "relay" then
      let id := msg.id.getD 1
      let b := msg.state.getD false
      match chIdx id with
      | none => (st, false)
      | some i =>
        let ld := st.L i
        let ld2 := { ld with
          relay := b,
          timerEndEpoch :=
            if b = true ∧ 0 < ld.timerMinutes
            then tnow + (ld.timerMinutes * 60).toNat else 0 }
        let st2 := { st with L := Function.update st.L i ld2 }
        (pushNotification tnow
          ("Relay " ++ toString id ++ (if b then " ON" else " OFF")) st2, false)
    else if c = "setTimer" then
      let id := msg.id.getD 1
      let m := msg.minutes.getD 0
      match chIdx id with
      | none => (st, false)
      | some i =>
        let ld := st.L i
        let ld2 := { ld with
          timerMinutes := m,
          timerEndEpoch :=
            if ld.relay = true ∧ 0 < m then tnow + (m * 60).toNat else 0 }
        ({ st with L := Function.update st.L i ld2 }, true)
    else if c = "setLimit" then
      let id := msg.id.getD 1
      let s := msg.seconds.getD 0
      match chIdx id with
      | none => (st, false)
      | some i =>
        if 0 < s then
          let ld2 := { st.L i with usageLimitSeconds := s }
          ({ st with L := Function.update st.L i ld2 }, true)
        else (st, false)
    else if c = "setPrice" then
      ({ st with unitPrice := msg.price.getD 8 }, true)
    else if c = "clearNotifs" then
      (pushNotification tnow "Notifs cleared" { st with notifs := [] }, false)
    else (st, false)

/-- The sensor environment for one tick: for each channel, whether the INA219
was found at boot (`inaPresent[i]`), the bus voltage, and the current in
amperes (`getCurrent_mA()/1000`, before the non-negativity clamp). -/
structure Env where
  present : Fin 4 → Bool
  volt : Fin 4 → ℚ
  amp : Fin 4 → ℚ

/-- The metering half of the per-channel tick body (lines 278–290): when the
sensor is present, clamp negative current to 0, set V/I/P, accumulate
`Wh += P/3600` and recompute `cost = (Wh/1000)*unitPrice`; when absent,
zero V/I/P and leave the accumulators alone. -/
def meterStep (present : Bool) (v c price : ℚ) (ld : Load) : Load :=
  if present then
    let c2 := if c < 0 then 0 else c
    let p := v * c2
    let wh := ld.Wh + p / 3600
    { ld with V := v, I := c2, P := p, Wh := wh, cost := wh / 1000 * price }
  else
    { ld with V := 0, I := 0, P := 0 }

/-- The usage-limit statement of the per-channel tick body (lines 292–299),
for the channel numbered `num` (1-based, used in notification text): if the
relay is on, increment `onSecondsToday`, and when a limit is configured and
the incremented counter reaches it, force the relay OFF and notify.  The
timer deadline is NOT touched here. -/
def limitStep (num : ℕ) (ld : Load) : Load × List String :=
  if ld.relay then
    let s := ld.onSecondsToday + 1
    if 0 < ld.usageLimitSeconds ∧ ld.usageLimitSeconds ≤ s then
      ({ ld with onSecondsToday := s, relay := false },
       ["Relay " ++ toString num ++ " auto OFF by limit"])
    else ({ ld with onSecondsToday := s }, [])
  else (ld, [])

/-- The timer statement of the per-channel tick body (lines 301–306), run
regardless of relay state: when a deadline is armed and the clock has reached
it, force the relay OFF, clear the deadline and notify. -/
def timerStep (tnow : ℕ) (num : ℕ) (ld : Load) : Load × List String :=
  if 0 < ld.timerEndEpoch ∧ ld.timerEndEpoch ≤ tnow then
    ({ ld with relay := false, timerEndEpoch := 0 },
     ["Relay " ++ toString num ++ " auto OFF by timer"])
  else (ld, [])

/-- The relay-policy half of the per-channel tick body (lines 292–306): the
limit statement, then the timer statement, notifications in program order. -/
def relayTick (tnow : ℕ) (num : ℕ) (ld : Load) : Load × List String :=
  let s1 := limitStep num ld
  let s2 := timerStep tnow num s1.1
  (s2.1, s1.2 ++ s2.2)

/-- The whole per-channel tick body: metering, then relay policy. -/
def tickChannel (tnow : ℕ) (present : Bool) (v c price : ℚ) (num : ℕ)
    (ld : Load) : Load × List String :=
  relayTick tnow num (meterStep present v c price ld)

/-- One whole tick of `loop()` (lines 275–309): every channel is processed in
order, and each emitted notification is appended to the log with the current
timestamp.  Channels are mutually independent, so the per-channel results are
assembled functionally. -/
def tick (tnow : ℕ) (env : Env) (st : SysState) : SysState :=
  { st with
    L := fun i =>
      (tickChannel tnow (env.present i) (env.volt i) (env.amp i)
        st.unitPrice ((i : ℕ) + 1) (st.L i)).1,
    notifs := st.notifs ++ (List.finRange 4).flatMap (fun i =>
      ((tickChannel tnow (env.present i) (env.volt i) (env.amp i)
        st.unitPrice ((i : ℕ) + 1) (st.L i)).2).map (fun s => (tnow, s))) }

/-- `n` consecutive ticks on a single channel with a fixed sensor reading and
fixed clock (the clock only feeds the timer check). -/
def iterTick (tnow : ℕ) (present : Bool) (v c price : ℚ) (num : ℕ) :
    ℕ → Load → Load
  | 0, ld => ld
  | n + 1, ld =>
      iterTick tnow present v c price num n
        (tickChannel tnow present v c price num ld).1

/-- An environment in which no sensor was found: every channel reads zero. -/
def envAbsent : Env :=
  { present := fun _ => false, volt := fun _ => 0, amp := fun _ => 0 }

/-! ### Helper lemmas -/

theorem chIdx_fin (i : Fin 4) : chIdx ((i : ℕ) + 1) = some i := by
  have h1 : (1 : ℤ) ≤ (i : ℕ) + 1 ∧ ((i : ℕ) + 1 : ℤ) ≤ 4 := by
    have := i.isLt; omega
  rw [chIdx, dif_pos h1]
  congr 1
  apply Fin.ext
  simp

@[simp] theorem meterStep_relay (present : Bool) (v c price : ℚ) (ld : Load) :
    (meterStep present v c price ld).relay = ld.relay := by
  unfold meterStep; split <;> rfl

@[simp] theorem meterStep_onSecondsToday (present : Bool) (v c price : ℚ)
    (ld : Load) :
    (meterStep present v c price ld).onSecondsToday = ld.onSecondsToday := by
  unfold meterStep; split <;> rfl

@[simp] theorem meterStep_usageLimitSeconds (present : Bool) (v c price : ℚ)
    (ld : Load) :
    (meterStep present v c price ld).usageLimitSeconds
      = ld.usageLimitSeconds := by
  unfold meterStep; split <;> rfl

@[simp] theorem meterStep_timerMinutes (present : Bool) (v c price : ℚ)
    (ld : Load) :
    (meterStep present v c price ld).timerMinutes = ld.timerMinutes := by
  unfold meterStep; split <;> rfl

@[simp] theorem meterStep_timerEndEpoch (present : Bool) (v c price : ℚ)
    (ld : Load) :
    (meterStep present v c price ld).timerEndEpoch = ld.timerEndEpoch := by
  unfold meterStep; split <;> rfl

/-- With a present sensor and non-negative current, one metering step sets
V/I/P and accumulates energy and cost exactly as lines 279–287 do. -/
theorem meterStep_present (v c price : ℚ) (ld : Load) (hc : 0 ≤ c) :
    meterStep true v c price ld =
      { ld with
        V := v, I := c, P := v * c, Wh := ld.Wh + v * c / 3600,
        cost := (ld.Wh + v * c / 3600) / 1000 * price } := by
  unfold meterStep
  simp [not_lt.mpr hc]

@[simp] theorem limitStep_Wh (num : ℕ) (ld : Load) :
    ((limitStep num ld).1).Wh = ld.Wh := by
  unfold limitStep; dsimp only; split_ifs <;> rfl

@[simp] theorem limitStep_cost (num : ℕ) (ld : Load) :
    ((limitStep num ld).1).cost = ld.cost := by
  unfold limitStep; dsimp only; split_ifs <;> rfl

@[simp] theorem limitStep_timerEndEpoch (num : ℕ) (ld : Load) :
    ((limitStep num ld).1).timerEndEpoch = ld.timerEndEpoch := by
  unfold limitStep; dsimp only; split_ifs <;> rfl

@[simp] theorem limitStep_timerMinutes (num : ℕ) (ld : Load) :
    ((limitStep num ld).1).timerMinutes = ld.timerMinutes := by
  unfold limitStep; dsimp only; split_ifs <;> rfl

@[simp] theorem limitStep_usageLimitSeconds (num : ℕ) (ld : Load) :
    ((limitStep num ld).1).usageLimitSeconds = ld.usageLimitSeconds := by
  unfold limitStep; dsimp only; split_ifs <;> rfl

@[simp] theorem timerStep_Wh (tnow num : ℕ) (ld : Load) :
    ((timerStep tnow num ld).1).Wh = ld.Wh := by
  unfold timerStep; split_ifs <;> rfl

@[simp] theorem timerStep_cost (tnow num : ℕ) (ld : Load) :
    ((timerStep tnow num ld).1).cost = ld.cost := by
  unfold timerStep; split_ifs <;> rfl

@[simp] theorem timerStep_onSecondsToday (tnow num : ℕ) (ld : Load) :
    ((timerStep tnow num ld).1).onSecondsToday = ld.onSecondsToday := by
  unfold timerStep; split_ifs <;> rfl

@[simp] theorem timerStep_usageLimitSeconds (tnow num : ℕ) (ld : Load) :
    ((timerStep tnow num ld).1).usageLimitSeconds = ld.usageLimitSeconds := by
  unfold timerStep; split_ifs <;> rfl

@[simp] theorem timerStep_timerMinutes (tnow num : ℕ) (ld : Load) :
    ((timerStep tnow num ld).1).timerMinutes = ld.timerMinutes := by
  unfold timerStep; split_ifs <;> rfl

/-- An idle relay step: relay off and timer not firing leaves the record and
the log untouched. -/
theorem relayTick_idle (tnow num : ℕ) (ld : Load) (h1 : ld.relay = false)
    (h2 : ¬ (0 < ld.timerEndEpoch ∧ ld.timerEndEpoch ≤ tnow)) :
    relayTick tnow num ld = (ld, []) := by
  unfold relayTick limitStep timerStep
  simp [h1, h2]

/-- A counting relay step: relay on, limit not reached, timer not firing
increments `onSecondsToday` and nothing else. -/
theorem relayTick_count (tnow num : ℕ) (ld : Load) (h1 : ld.relay = true)
    (h2 : ¬ (0 < ld.usageLimitSeconds
            ∧ ld.usageLimitSeconds ≤ ld.onSecondsToday + 1))
    (h3 : ¬ (0 < ld.timerEndEpoch ∧ ld.timerEndEpoch ≤ tnow)) :
    relayTick tnow num ld
      = ({ ld with onSecondsToday := ld.onSecondsToday + 1 }, []) := by
  unfold relayTick limitStep timerStep
  simp [h1, h2, h3]

/-- The limit trip (lines 294–298): relay on, configured limit reached by the
incremented counter, timer not firing.  The relay is forced OFF and the
"auto OFF by limit" notification is emitted; `timerEndEpoch` is NOT cleared. -/
theorem relayTick_limit (tnow num : ℕ) (ld : Load) (h1 : ld.relay = true)
    (h2 : 0 < ld.usageLimitSeconds)
    (h3 : ld.usageLimitSeconds ≤ ld.onSecondsToday + 1)
    (h4 : ¬ (0 < ld.timerEndEpoch ∧ ld.timerEndEpoch ≤ tnow)) :
    relayTick tnow num ld
      = ({ ld with onSecondsToday := ld.onSecondsToday + 1, relay := false },
         ["Relay " ++ toString num ++ " auto OFF by limit"]) := by
  unfold relayTick limitStep timerStep
  simp [h1, h2, h3, h4]

/-- The timer trip (lines 301–306) runs whatever the relay state: the relay
ends OFF, the deadline is cleared, and the "auto OFF by timer" notification
is the last one emitted. -/
theorem relayTick_timer (tnow num : ℕ) (ld : Load)
    (h1 : 0 < ld.timerEndEpoch) (h2 : ld.timerEndEpoch ≤ tnow) :
    ((relayTick tnow num ld).1).relay = false ∧
    ((relayTick tnow num ld).1).timerEndEpoch = 0 ∧
    ("Relay " ++ toString num ++ " auto OFF by timer")
      ∈ (relayTick tnow num ld).2 := by
  unfold relayTick timerStep
  simp [h1, h2]

@[simp] theorem relayTick_Wh (tnow num : ℕ) (ld : Load) :
    ((relayTick tnow num ld).1).Wh = ld.Wh := by
  unfold relayTick; simp

@[simp] theorem relayTick_cost (tnow num : ℕ) (ld : Load) :
    ((relayTick tnow num ld).1).cost = ld.cost := by
  unfold relayTick; simp

/-- Projection of a whole tick to one channel: the per-channel body applied
to that channel's record. -/
theorem tick_L (tnow : ℕ) (env : Env) (st : SysState) (i : Fin 4) :
    (tick tnow env st).L i
      = (tickChannel tnow (env.present i) (env.volt i) (env.amp i)
          st.unitPrice ((i : ℕ) + 1) (st.L i)).1 := rfl

@[simp] theorem tick_unitPrice (tnow : ℕ) (env : Env) (st : SysState) :
    (tick tnow env st).unitPrice = st.unitPrice := rfl

/-- Any notification emitted by channel `i`'s tick body lands in the log of
the whole tick, stamped with the tick's clock. -/
theorem tick_notif_mem (tnow : ℕ) (env : Env) (st : SysState) (i : Fin 4)
    (s : String)
    (hs : s ∈ (tickChannel tnow (env.present i) (env.volt i) (env.amp i)
          st.unitPrice ((i : ℕ) + 1) (st.L i)).2) :
    (tnow, s) ∈ (tick tnow env st).notifs := by
  unfold tick
  refine List.mem_append_right _ ?_
  refine List.mem_flatMap.mpr ⟨i, List.mem_finRange i, ?_⟩
  exact List.mem_map.mpr ⟨s, hs, rfl⟩

theorem limitStep_off (num : ℕ) (ld : Load) (h : ld.relay = false) :
    limitStep num ld = (ld, []) := by
  unfold limitStep; simp [h]

theorem limitStep_count (num : ℕ) (ld : Load) (h : ld.relay = true)
    (h2 : ¬ (0 < ld.usageLimitSeconds
            ∧ ld.usageLimitSeconds ≤ ld.onSecondsToday + 1)) :
    limitStep num ld
      = ({ ld with onSecondsToday := ld.onSecondsToday + 1 }, []) := by
  unfold limitStep; simp [h, h2]

theorem limitStep_trip (num : ℕ) (ld : Load) (h : ld.relay = true)
    (h2 : 0 < ld.usageLimitSeconds)
    (h3 : ld.usageLimitSeconds ≤ ld.onSecondsToday + 1) :
    limitStep num ld
      = ({ ld with onSecondsToday := ld.onSecondsToday + 1, relay := false },
         ["Relay " ++ toString num ++ " auto OFF by limit"]) := by
  unfold limitStep; simp [h, h2, h3]

theorem timerStep_noop (tnow num : ℕ) (ld : Load)
    (h : ¬ (0 < ld.timerEndEpoch ∧ ld.timerEndEpoch ≤ tnow)) :
    timerStep tnow num ld = (ld, []) := by
  unfold timerStep; simp [h]

theorem timerStep_fire (tnow num : ℕ) (ld : Load)
    (h1 : 0 < ld.timerEndEpoch) (h2 : ld.timerEndEpoch ≤ tnow) :
    timerStep tnow num ld
      = ({ ld with relay := false, timerEndEpoch := 0 },
         ["Relay " ++ toString num ++ " auto OFF by timer"]) := by
  unfold timerStep; simp [h1, h2]

/-- The timer statement never turns a relay on. -/
theorem timerStep_relay_off (tnow num : ℕ) (ld : Load)
    (h : ld.relay = false) : ((timerStep tnow num ld).1).relay = false := by
  unfold timerStep; split_ifs <;> simp [h]

theorem meterStep_Wh_present (v c price : ℚ) (ld : Load) (hc : 0 ≤ c) :
    (meterStep true v c price ld).Wh = ld.Wh + v * c / 3600 := by
  unfold meterStep; simp [not_lt.mpr hc]

theorem meterStep_cost_present (v c price : ℚ) (ld : Load) (hc : 0 ≤ c) :
    (meterStep true v c price ld).cost
      = (ld.Wh + v * c / 3600) / 1000 * price := by
  unfold meterStep; simp [not_lt.mpr hc]

/-- The `cost` written by a present-sensor metering step is the new `Wh`
divided by 1000 times the price passed in — whatever the current sign. -/
theorem meterStep_cost_eq (v c price : ℚ) (ld : Load) :
    (meterStep true v c price ld).cost
      = (meterStep true v c price ld).Wh / 1000 * price := by
  unfold meterStep; simp

/-! ### Reduction lemmas for each `handleWS` branch -/

theorem handleWS_relay_eq (tnow : ℕ) (idz : ℤ) (b : Bool) (mm : Option ℤ)
    (ss : Option ℕ) (pp : Option ℚ) (st : SysState) (i : Fin 4)
    (hi : chIdx idz = some i) :
    handleWS tnow ⟨some "relay", some idz, some b, mm, ss, pp⟩ st =
      (pushNotification tnow
        ("Relay " ++ toString idz ++ (if b then " ON" else " OFF"))
        { st with L := Function.update st.L i ({ st.L i with
            relay := b,
            timerEndEpoch :=
              if b = true ∧ 0 < (st.L i).timerMinutes
              then tnow + ((st.L i).timerMinutes * 60).toNat else 0 }) },
       false) := by
  simp only [handleWS, Option.getD_some, hi]
  simp

theorem handleWS_setTimer_eq (tnow : ℕ) (idz m : ℤ) (bb : Option Bool)
    (ss : Option ℕ) (pp : Option ℚ) (st : SysState) (i : Fin 4)
    (hi : chIdx idz = some i) :
    handleWS tnow ⟨some "setTimer", some idz, bb, some m, ss, pp⟩ st =
      ({ st with L := Function.update st.L i ({ st.L i with
          timerMinutes := m,
          timerEndEpoch :=
            if (st.L i).relay = true ∧ 0 < m
            then tnow + (m * 60).toNat else 0 }) }, true) := by
  simp only [handleWS, Option.getD_some, hi]
  simp

theorem handleWS_setLimit_eq (tnow : ℕ) (idz : ℤ) (s : ℕ) (bb : Option Bool)
    (mm : Option ℤ) (pp : Option ℚ) (st : SysState) (i : Fin 4)
    (hi : chIdx idz = some i) (hs : 0 < s) :
    handleWS tnow ⟨some "setLimit", some idz, bb, mm, some s, pp⟩ st =
      ({ st with L := Function.update st.L i ({ st.L i with
          usageLimitSeconds := s }) }, true) := by
  simp only [handleWS, Option.getD_some, hi]
  simp [hs]

/-- `setLimit` with `seconds = 0` falls into the rejected branch whatever the
channel id: no state change, no save (line 173's `s>0` conjunct). -/
theorem handleWS_setLimit_zero (tnow : ℕ) (idz : ℤ) (bb : Option Bool)
    (mm : Option ℤ) (pp : Option ℚ) (st : SysState) :
    handleWS tnow ⟨some "setLimit", some idz, bb, mm, some 0, pp⟩ st
      = (st, false) := by
  cases hi : chIdx idz <;> simp only [handleWS, Option.getD_some, hi] <;> simp

theorem handleWS_setPrice_eq (tnow : ℕ) (p : ℚ) (ii : Option ℤ)
    (bb : Option Bool) (mm : Option ℤ) (ss : Option ℕ) (st : SysState) :
    handleWS tnow ⟨some "setPrice", ii, bb, mm, ss, some p⟩ st
      = ({ st with unitPrice := p }, true) := by
  simp only [handleWS, Option.getD_some]
  simp

theorem handleWS_clearNotifs_eq (tnow : ℕ) (ii : Option ℤ) (bb : Option Bool)
    (mm : Option ℤ) (ss : Option ℕ) (pp : Option ℚ) (st : SysState) :
    handleWS tnow ⟨some "clearNotifs", ii, bb, mm, ss, pp⟩ st
      = ({ st with notifs := [(tnow, "Notifs cleared")] }, false) := by
  simp only [handleWS]
  simp [pushNotification]

/-- The five command tags the processor recognises. -/
def knownTags : List String :=
  ["relay", "setTimer", "setLimit", "setPrice", "clearNotifs"]

/-- A message the processor drops: the `cmd` key is absent or its value is
not a known tag, or it is one of the three channel commands and the
(defaulted) channel id fails the `1..4` validation. -/
def invalidCmd (msg : WSMsg) : Prop :=
  msg.cmd ∉ knownTags.map some ∨
    (msg.cmd ∈ [some "relay", some "setTimer", some "setLimit"]
      ∧ chIdx (msg.id.getD 1) = none)

instance : DecidablePred invalidCmd := fun msg => by
  unfold invalidCmd; infer_instance

/-- Dropped commands change nothing and trigger no save. -/
theorem handleWS_invalid (tnow : ℕ) (msg : WSMsg) (st : SysState)
    (h : invalidCmd msg) : handleWS tnow msg st = (st, false) := by
  rcases h with h | ⟨hmem, hidx⟩
  · cases hc : msg.cmd with
    | none => simp only [handleWS, hc]
    | some c =>
        rw [hc] at h
        simp only [knownTags, List.map, List.mem_cons, List.not_mem_nil,
          or_false, Option.some.injEq, not_or] at h
        obtain ⟨h1, h2, h3, h4, h5⟩ := h
        simp only [handleWS, hc]
        simp [h1, h2, h3, h4, h5]
  · simp only [List.mem_cons, List.not_mem_nil, or_false] at hmem
    rcases hmem with hc | hc | hc <;>
      simp only [handleWS, hc, hidx] <;> simp

/-! ### Per-channel tick scenarios and iterated ticks -/

/-- A tick on an ON channel whose incremented counter stays below the
configured limit and whose timer is unarmed: the relay stays ON, the counter
advances by one, the limit and the (zero) deadline are untouched, and no
notification is emitted. -/
theorem tickChannel_count (tnow : ℕ) (present : Bool) (v c price : ℚ)
    (num : ℕ) (ld : Load) (hr : ld.relay = true) (ht : ld.timerEndEpoch = 0)
    (hlim : ld.onSecondsToday + 1 < ld.usageLimitSeconds) :
    ((tickChannel tnow present v c price num ld).1).relay = true ∧
    ((tickChannel tnow present v c price num ld).1).onSecondsToday
      = ld.onSecondsToday + 1 ∧
    ((tickChannel tnow present v c price num ld).1).usageLimitSeconds
      = ld.usageLimitSeconds ∧
    ((tickChannel tnow present v c price num ld).1).timerEndEpoch = 0 ∧
    (tickChannel tnow present v c price num ld).2 = [] := by
  unfold tickChannel
  rw [relayTick_count tnow num _ (by simp [hr]) (by simp; omega)
    (by simp [ht])]
  simp [hr, ht]

/-- A tick on an ON channel with a configured limit already reached by the
incremented counter forces the relay OFF, whatever the timer state. -/
theorem tickChannel_trip_off (tnow : ℕ) (present : Bool) (v c price : ℚ)
    (num : ℕ) (ld : Load) (hr : ld.relay = true)
    (hlpos : 0 < ld.usageLimitSeconds)
    (hreach : ld.usageLimitSeconds ≤ ld.onSecondsToday + 1) :
    ((tickChannel tnow present v c price num ld).1).relay = false := by
  unfold tickChannel relayTick
  have h1 : limitStep num (meterStep present v c price ld)
      = ({ meterStep present v c price ld with
           onSecondsToday := (meterStep present v c price ld).onSecondsToday + 1,
           relay := false },
         ["Relay " ++ toString num ++ " auto OFF by limit"]) :=
    limitStep_trip num _ (by simp [hr]) (by simpa using hlpos)
      (by simpa using hreach)
  rw [h1]
  exact timerStep_relay_off tnow num _ rfl

/-- Unfold one tick at the output end of an iterated run. -/
theorem iterTick_succ_out (tnow : ℕ) (present : Bool) (v c price : ℚ)
    (num n : ℕ) (ld : Load) :
    iterTick tnow present v c price num (n + 1) ld
      = (tickChannel tnow present v c price num
          (iterTick tnow present v c price num n ld)).1 := by
  induction n generalizing ld with
  | zero => rfl
  | succ n ih =>
      have h1 : iterTick tnow present v c price num (n + 1 + 1) ld
          = iterTick tnow present v c price num (n + 1)
              (tickChannel tnow present v c price num ld).1 := rfl
      rw [h1, ih]
      rfl

/-- A channel that starts ON with an unarmed timer and `n` more seconds of
headroom below its configured limit is still ON after `n` ticks, with its
counter advanced by exactly `n`. -/
theorem iterTick_running (tnow : ℕ) (present : Bool) (v c price : ℚ)
    (num n : ℕ) (ld : Load) (hr : ld.relay = true) (ht : ld.timerEndEpoch = 0)
    (hn : ld.onSecondsToday + n < ld.usageLimitSeconds) :
    (iterTick tnow present v c price num n ld).relay = true ∧
    (iterTick tnow present v c price num n ld).onSecondsToday
      = ld.onSecondsToday + n ∧
    (iterTick tnow present v c price num n ld).usageLimitSeconds
      = ld.usageLimitSeconds ∧
    (iterTick tnow present v c price num n ld).timerEndEpoch = 0 := by
  induction n generalizing ld with
  | zero => exact ⟨hr, rfl, rfl, ht⟩
  | succ n ih =>
      obtain ⟨c1, c2, c3, c4, -⟩ :=
        tickChannel_count tnow present v c price num ld hr ht (by omega)
      have hstep : iterTick tnow present v c price num (n + 1) ld
          = iterTick tnow present v c price num n
              (tickChannel tnow present v c price num ld).1 := rfl
      rw [hstep]
      obtain ⟨r1, r2, r3, r4⟩ := ih _ c1 c4 (by omega)
      refine ⟨r1, ?_, ?_, r4⟩
      · rw [r2, c2]; omega
      · rw [r3, c3]

/-- Energy accumulation over `n` ticks of constant reading `(v, c)` with a
present sensor: each tick adds exactly `v*c/3600` Wh. -/
theorem iterTick_energy (tnow : ℕ) (v c price : ℚ) (num n : ℕ) (ld : Load)
    (hc : 0 ≤ c) :
    (iterTick tnow true v c price num n ld).Wh
      = ld.Wh + n * (v * c / 3600) := by
  induction n generalizing ld with
  | zero => simp [iterTick]
  | succ n ih =>
      have hstep : iterTick tnow true v c price num (n + 1) ld
          = iterTick tnow true v c price num n
              (tickChannel tnow true v c price num ld).1 := rfl
      rw [hstep, ih]
      have hWh : ((tickChannel tnow true v c price num ld).1).Wh
          = ld.Wh + v * c / 3600 := by
        unfold tickChannel
        rw [relayTick_Wh, meterStep_Wh_present v c price ld hc]
      rw [hWh]
      push_cast
      ring

/-- After any positive number of ticks with a present sensor, the stored cost
is the stored energy over 1000 times the price used at the ticks. -/
theorem iterTick_cost (tnow : ℕ) (v c price : ℚ) (num n : ℕ) (ld : Load)
    (hn : 1 ≤ n) :
    (iterTick tnow true v c price num n ld).cost
      = (iterTick tnow true v c price num n ld).Wh / 1000 * price := by
  obtain ⟨m, rfl⟩ : ∃ m, n = m + 1 := ⟨n - 1, by omega⟩
  rw [iterTick_succ_out]
  unfold tickChannel
  rw [relayTick_cost, relayTick_Wh]
  exact meterStep_cost_eq v c price _

/-- The message with every absent field replaced by the default that
ArduinoJson's `|` operator substitutes at the read site: id 1, state false,
minutes 0, seconds 0, price 8.0. -/
def fillDefaults (m : WSMsg) : WSMsg :=
  { cmd := m.cmd, id := some (m.id.getD 1), state := some (m.state.getD false),
    minutes := some (m.minutes.getD 0), seconds := some (m.seconds.getD 0),
    price := some (m.price.getD 8) }

/-- The processor reads every payload field through a default: a message with
absent fields behaves exactly like the message with the defaults written in. -/
theorem handleWS_fillDefaults (tnow : ℕ) (m : WSMsg) (st : SysState) :
    handleWS tnow m st = handleWS tnow (fillDefaults m) st := by
  rcases m with ⟨c0, i0, b0, m0, s0, p0⟩
  cases c0 <;> rfl

/-- A tick on an ON channel whose configured limit is reached by the
incremented counter, while the timer does not fire: the whole channel result,
with the timer deadline carried over unchanged from the pre-tick record. -/
theorem tickChannel_limit_scenario (tnow : ℕ) (present : Bool)
    (v c price : ℚ) (num : ℕ) (ld : Load) (hr : ld.relay = true)
    (hlpos : 0 < ld.usageLimitSeconds)
    (hreach : ld.usageLimitSeconds ≤ ld.onSecondsToday + 1)
    (htimer : ¬ (0 < ld.timerEndEpoch ∧ ld.timerEndEpoch ≤ tnow)) :
    tickChannel tnow present v c price num ld
      = ({ meterStep present v c price ld with
           onSecondsToday := ld.onSecondsToday + 1, relay := false },
         ["Relay " ++ toString num ++ " auto OFF by limit"]) := by
  unfold tickChannel relayTick
  rw [limitStep_trip num _ (by simp [hr]) (by simpa using hlpos)
    (by simpa using hreach)]
  dsimp only
  rw [timerStep_noop tnow num _ (by simpa using htimer)]
  simp

/-- A tick on a channel whose timer is armed and expired: the relay ends OFF
and the deadline cleared whatever the relay state was, and the timer
notification is emitted. -/
theorem tickChannel_timer (tnow : ℕ) (present : Bool) (v c price : ℚ)
    (num : ℕ) (ld : Load) (h1 : 0 < ld.timerEndEpoch)
    (h2 : ld.timerEndEpoch ≤ tnow) :
    ((tickChannel tnow present v c price num ld).1).relay = false ∧
    ((tickChannel tnow present v c price num ld).1).timerEndEpoch = 0 ∧
    ("Relay " ++ toString num ++ " auto OFF by timer")
      ∈ (tickChannel tnow present v c price num ld).2 := by
  unfold tickChannel
  exact relayTick_timer tnow num _ (by simpa using h1) (by simpa using h2)

/-! ### Concrete fixtures for witnesses and counterexamples -/

/-- An environment in which every sensor was found, reading 12 V and 1 A. -/
def envPresent : Env :=
  { present := fun _ => true, volt := fun _ => 12, amp := fun _ => 1 }

/-- A channel record one second short of a configured 5-second limit, ON,
with a timer armed for epoch second 1000. -/
def ldTrip : Load :=
  { initLoad with
    relay := true, onSecondsToday := 4,
    usageLimitSeconds := 5, timerEndEpoch := 1000 }

/-- A state with `ldTrip` on all four channels and an empty log. -/
def stTrip : SysState :=
  { L := fun _ => ldTrip, unitPrice := 8, notifs := [] }

/-- A boot-like state whose channels all have 2 configured timer minutes. -/
def stMin : SysState :=
  { L := fun _ => { initLoad with timerMinutes := 2 },
    unitPrice := 8, notifs := [] }

/-! ### The claims -/

/-- C1 (counterexample): after a `clearNotifs` command the notification log
is NOT empty: line 179 immediately appends the "Notifs cleared" confirmation
entry, so a read returns one entry, not an empty sequence. -/
theorem C1_clear_counterexample :
    (handleWS 5 ⟨some "clearNotifs", none, none, none, none, none⟩
      initState).1.notifs ≠ [] := by decide

/-- C1 (amended): `clearNotifs` truncates the log to empty and then appends
the "Notifs cleared" confirmation: a subsequent read yields exactly that one
entry, and no pre-command entry survives. -/
theorem C1_clear_leaves_confirmation (tnow : ℕ) (ii : Option ℤ)
    (bb : Option Bool) (mm : Option ℤ) (ss : Option ℕ) (pp : Option ℚ)
    (st : SysState) :
    (handleWS tnow ⟨some "clearNotifs", ii, bb, mm, ss, pp⟩ st).1.notifs
      = [(tnow, "Notifs cleared")] := by
  rw [handleWS_clearNotifs_eq]

/-- C3 (counterexample): a `relay` command with the required `id` and `state`
fields missing is NOT dropped: the read-site defaults (id 1, state false)
make it act on channel 1 and push a "Relay 1 OFF" notification, so the state
snapshot changes. -/
theorem C3_missing_field_counterexample :
    (handleWS 3 ⟨some "relay", none, none, none, none, none⟩
      initState).1.notifs ≠ initState.notifs := by decide

/-- C3 (amended): a command with an out-of-range channel id, or an absent or
unrecognized tag, is dropped with no state change, no notification and no
settings save; but a recognized command with missing payload fields is not
dropped: it behaves exactly as if the defaults id=1, state=false, minutes=0,
seconds=0, price=8.0 had been written in the payload. -/
theorem C3_invalid_dropped_defaults_filled (tnow : ℕ) (msg msg2 : WSMsg)
    (st st2 : SysState) (h : invalidCmd msg) :
    handleWS tnow msg st = (st, false) ∧
    handleWS tnow msg2 st2 = handleWS tnow (fillDefaults msg2) st2 :=
  ⟨handleWS_invalid tnow msg st h, handleWS_fillDefaults tnow msg2 st2⟩

/-- C3 (witness): the amended theorem at the concrete unknown-tag message
`{"cmd":"bogus","id":9}` on the boot state. -/
theorem C3_invalid_dropped_defaults_filled_witness :
    invalidCmd ⟨some "bogus", some 9, none, none, none, none⟩ ∧
    handleWS 4 ⟨some "bogus", some 9, none, none, none, none⟩ initState
      = (initState, false) :=
  ⟨by decide,
   (C3_invalid_dropped_defaults_filled 4 ⟨some "bogus", some 9, none, none,
      none, none⟩ ⟨none, none, none, none, none, none⟩ initState initState
     (by decide)).1⟩

/-- C7: a valid relay command sets the flag as requested; turning ON with
positive configured timer-minutes arms the deadline at now + minutes×60, and
every other case (turning OFF, or ON with no timer minutes) clears it to 0.
Consequently ON-then-OFF clears the deadline, and a later ON with
timer-minutes still positive arms a fresh deadline from the new ON time. -/
theorem C7_relay_sets_flag_and_deadline (t1 t2 t3 : ℕ) (st : SysState)
    (i : Fin 4) (b : Bool) (msg : WSMsg) (hcmd : msg.cmd = some "relay")
    (hid : msg.id = some ((i : ℕ) + 1 : ℤ)) (hst : msg.state = some b) :
    (let st1 := (handleWS t1 msg st).1
     (st1.L i).relay = b ∧
     (st1.L i).timerEndEpoch
       = (if b = true ∧ 0 < (st.L i).timerMinutes
          then t1 + ((st.L i).timerMinutes * 60).toNat else 0)) ∧
    (let stOn := (handleWS t1 ⟨some "relay", some ((i : ℕ) + 1 : ℤ), some true,
        none, none, none⟩ st).1
     let stOff := (handleWS t2 ⟨some "relay", some ((i : ℕ) + 1 : ℤ), some false,
        none, none, none⟩ stOn).1
     (stOff.L i).timerEndEpoch = 0 ∧
     (0 < (st.L i).timerMinutes →
       (((handleWS t3 ⟨some "relay", some ((i : ℕ) + 1 : ℤ), some true,
           none, none, none⟩ stOff).1).L i).timerEndEpoch
         = t3 + ((st.L i).timerMinutes * 60).toNat)) := by
  obtain ⟨c0, i0, b0, m0, s0, p0⟩ := msg
  simp only at hcmd hid hst
  subst hcmd hid hst
  constructor
  · rw [handleWS_relay_eq t1 _ b m0 s0 p0 st i (chIdx_fin i)]
    simp [pushNotification, Function.update_same]
  · rw [handleWS_relay_eq t1 _ true none none none st i (chIdx_fin i)]
    simp only [pushNotification]
    rw [handleWS_relay_eq t2 _ false none none none _ i (chIdx_fin i)]
    simp only [pushNotification]
    constructor
    · simp [Function.update_same]
    · intro hm
      rw [handleWS_relay_eq t3 _ true none none none _ i (chIdx_fin i)]
      simp [pushNotification, Function.update_same, hm]

/-- C7 (witness): the relay-command theorem at channel 2 of a state with 2
configured timer minutes, turning ON at time 5: the relay flag is set. -/
theorem C7_relay_sets_flag_and_deadline_witness :
    ((handleWS 5 ⟨some "relay", some 2, some true, none, none, none⟩
        stMin).1.L 1).relay = true :=
  ((C7_relay_sets_flag_and_deadline 5 6 7 stMin 1 true
      ⟨some "relay", some 2, some true, none, none, none⟩
      rfl (by decide) rfl).1).1

/-- C8: `setLimit` with a valid channel id and seconds = 0 is a complete
no-op: the state (including the prior limit value) is unchanged and no
settings save is triggered. -/
theorem C8_setLimit_zero_noop (tnow : ℕ) (idz : ℤ) (bb : Option Bool)
    (mm : Option ℤ) (pp : Option ℚ) (st : SysState)
    (h1 : 1 ≤ idz) (h2 : idz ≤ 4) :
    handleWS tnow ⟨some "setLimit", some idz, bb, mm, some 0, pp⟩ st
      = (st, false) :=
  handleWS_setLimit_zero tnow idz bb mm pp st

/-- C8 (witness): `setLimit(2, 0)` on the boot state changes nothing and
does not save. -/
theorem C8_setLimit_zero_noop_witness :
    (1 : ℤ) ≤ 2 ∧ (2 : ℤ) ≤ 4 ∧
    handleWS 9 ⟨some "setLimit", some 2, none, none, some 0, none⟩ initState
      = (initState, false) :=
  ⟨by decide, by decide,
   C8_setLimit_zero_noop 9 2 none none none initState (by decide) (by decide)⟩

/-- C2 (counterexample): at a tick on a channel that is ON with limit 5 and
counter 4 and a timer armed for epoch 1000, at clock 10 the limit trips (the
relay is forced OFF and the limit notification is emitted) but the timer
deadline is NOT cleared to 0: the limit branch at lines 294–298 never
touches `timerEndEpoch`. -/
theorem C2_limit_keeps_deadline_counterexample :
    ((tick 10 envAbsent stTrip).L 0).relay = false ∧
    (10, "Relay 1 auto OFF by limit") ∈ (tick 10 envAbsent stTrip).notifs ∧
    ((tick 10 envAbsent stTrip).L 0).timerEndEpoch ≠ 0 := by decide

/-- C2 (amended): for every channel ON at a tick with a configured limit
reached by the incremented counter, and whose timer does not fire at the same
tick, the tick forces the relay OFF, increments the counter, and emits the
"auto OFF by limit" notification — but leaves the timer deadline exactly as
it was instead of clearing it. -/
theorem C2_limit_trip_behaviour (tnow : ℕ) (env : Env) (st : SysState)
    (i : Fin 4) (hr : (st.L i).relay = true)
    (hlpos : 0 < (st.L i).usageLimitSeconds)
    (hreach : (st.L i).usageLimitSeconds ≤ (st.L i).onSecondsToday + 1)
    (htimer : ¬ (0 < (st.L i).timerEndEpoch
               ∧ (st.L i).timerEndEpoch ≤ tnow)) :
    ((tick tnow env st).L i).relay = false ∧
    ((tick tnow env st).L i).onSecondsToday
      = (st.L i).onSecondsToday + 1 ∧
    ((tick tnow env st).L i).timerEndEpoch = (st.L i).timerEndEpoch ∧
    (tnow, "Relay " ++ toString ((i : ℕ) + 1) ++ " auto OFF by limit")
      ∈ (tick tnow env st).notifs := by
  have heq := tickChannel_limit_scenario tnow (env.present i) (env.volt i)
    (env.amp i) st.unitPrice ((i : ℕ) + 1) (st.L i) hr hlpos hreach htimer
  refine ⟨?_, ?_, ?_, ?_⟩
  · rw [tick_L, heq]
  · rw [tick_L, heq]
  · rw [tick_L, heq]
    simp
  · exact tick_notif_mem tnow env st i _ (by rw [heq]; simp)

/-- C2 (witness): the amended limit-trip theorem at channel 1 of `stTrip`
(ON, counter 4, limit 5, timer armed for 1000) at clock 10. -/
theorem C2_limit_trip_behaviour_witness :
    (stTrip.L 0).relay = true ∧ 0 < (stTrip.L 0).usageLimitSeconds ∧
    ((tick 10 envAbsent stTrip).L 0).timerEndEpoch
      = (stTrip.L 0).timerEndEpoch :=
  ⟨by decide, by decide,
   (C2_limit_trip_behaviour 10 envAbsent stTrip 0 (by decide) (by decide)
     (by decide) (by decide)).2.2.1⟩

/-- A state whose channels all carry 1000 Wh and a cost of 8, consistent
with the unit price 8. -/
def stWh : SysState :=
  { L := fun _ => { initLoad with Wh := 1000, cost := 8 },
    unitPrice := 8, notifs := [] }

/-- C5 (counterexample): a `setPrice` command does not recompute the stored
costs: on a state whose channel 1 has 1000 Wh and a (consistent) cost of 8 at
price 8, setting the price to 10 leaves the stored cost at 8, which differs
from (energy/1000) × new price = 10. -/
theorem C5_setPrice_stale_cost_counterexample :
    ((handleWS 2 ⟨some "setPrice", none, none, none, none, some 10⟩
        stWh).1.L 0).cost
      ≠ ((handleWS 2 ⟨some "setPrice", none, none, none, none, some 10⟩
          stWh).1.L 0).Wh / 1000
        * (handleWS 2 ⟨some "setPrice", none, none, none, none, some 10⟩
            stWh).1.unitPrice := by
  rw [handleWS_setPrice_eq]
  norm_num [stWh, initLoad]

/-- C5 (amended): the stored cost equals (energy/1000) × current unit price
after every tick, for every channel with a present sensor — the tick is the
only place cost is recomputed; a `setPrice` command changes the price without
touching any stored cost, so the relation is only restored at the next
tick. -/
theorem C5_cost_consistent_after_tick (tnow : ℕ) (env : Env) (st : SysState)
    (i : Fin 4) (hp : env.present i = true) :
    ((tick tnow env st).L i).cost
      = ((tick tnow env st).L i).Wh / 1000 * (tick tnow env st).unitPrice := by
  rw [tick_L, tick_unitPrice]
  unfold tickChannel
  rw [relayTick_cost, relayTick_Wh, hp]
  exact meterStep_cost_eq (env.volt i) (env.amp i) st.unitPrice (st.L i)

/-- C5 (witness): the amended cost-consistency theorem after one tick of the
all-sensors-present environment on the boot state. -/
theorem C5_cost_consistent_after_tick_witness :
    envPresent.present 0 = true ∧
    ((tick 1 envPresent initState).L 0).cost
      = ((tick 1 envPresent initState).L 0).Wh / 1000
        * (tick 1 envPresent initState).unitPrice :=
  ⟨rfl, C5_cost_consistent_after_tick 1 envPresent initState 0 rfl⟩

/-- C9: the timer-expiry check runs for every channel regardless of relay
state: whenever a deadline is armed and reached, the tick forces the relay
OFF, clears the deadline and emits the "auto OFF by timer" notification even
on an already-OFF channel; in particular a deadline left armed by a limit
trip (which does not clear it) produces an additional timer notification at
a later tick on the then-OFF channel. -/
theorem C9_timer_check_runs_regardless (t1 t2 : ℕ) (env1 env2 : Env)
    (st : SysState) (i : Fin 4) (h1 : 0 < (st.L i).timerEndEpoch) :
    ((st.L i).timerEndEpoch ≤ t1 →
      ((tick t1 env1 st).L i).relay = false ∧
      ((tick t1 env1 st).L i).timerEndEpoch = 0 ∧
      (t1, "Relay " ++ toString ((i : ℕ) + 1) ++ " auto OFF by timer")
        ∈ (tick t1 env1 st).notifs) ∧
    ((st.L i).relay = true → 0 < (st.L i).usageLimitSeconds →
     (st.L i).usageLimitSeconds ≤ (st.L i).onSecondsToday + 1 →
     t1 < (st.L i).timerEndEpoch → (st.L i).timerEndEpoch ≤ t2 →
      ((tick t1 env1 st).L i).relay = false ∧
      ((tick t1 env1 st).L i).timerEndEpoch = (st.L i).timerEndEpoch ∧
      (t2, "Relay " ++ toString ((i : ℕ) + 1) ++ " auto OFF by timer")
        ∈ (tick t2 env2 (tick t1 env1 st)).notifs) := by
  constructor
  · intro h2
    obtain ⟨a1, a2, a3⟩ := tickChannel_timer t1 (env1.present i)
      (env1.volt i) (env1.amp i) st.unitPrice ((i : ℕ) + 1) (st.L i) h1 h2
    exact ⟨by rw [tick_L]; exact a1, by rw [tick_L]; exact a2,
      tick_notif_mem t1 env1 st i _ a3⟩
  · intro hr hlpos hreach hlt hle
    have heq := tickChannel_limit_scenario t1 (env1.present i) (env1.volt i)
      (env1.amp i) st.unitPrice ((i : ℕ) + 1) (st.L i) hr hlpos hreach
      (by omega)
    have hL1 : ((tick t1 env1 st).L i).timerEndEpoch
        = (st.L i).timerEndEpoch := by
      rw [tick_L, heq]; simp
    refine ⟨by rw [tick_L, heq], hL1, ?_⟩
    obtain ⟨-, -, b3⟩ := tickChannel_timer t2 (env2.present i)
      (env2.volt i) (env2.amp i) (tick t1 env1 st).unitPrice ((i : ℕ) + 1)
      ((tick t1 env1 st).L i) (by rw [hL1]; omega) (by rw [hL1]; omega)
    exact tick_notif_mem t2 env2 (tick t1 env1 st) i _ b3

/-- C4: constant measured power on a present-sensor channel integrates
exactly: N ticks of reading (v, c) with c ≥ 0 add N·(v·c)/3600 Wh to an
initially-zero energy accumulator, and at every tick k of the run the stored
cost is (energy so far / 1000) × unit price. -/
theorem C4_energy_accumulation (tnow : ℕ) (num : ℕ) (v c price : ℚ)
    (ld : Load) (hc : 0 ≤ c) (hWh : ld.Wh = 0) (N k : ℕ)
    (h1 : 1 ≤ k) (h2 : k ≤ N) :
    (iterTick tnow true v c price num N ld).Wh = N * (v * c) / 3600 ∧
    (iterTick tnow true v c price num k ld).cost
      = (iterTick tnow true v c price num k ld).Wh / 1000 * price := by
  constructor
  · rw [iterTick_energy tnow v c price num N ld hc, hWh]
    ring
  · exact iterTick_cost tnow v c price num k ld h1

/-- C4 (witness): three ticks at 2 V × 3 A on a fresh channel. -/
theorem C4_energy_accumulation_witness :
    (0 : ℚ) ≤ 3 ∧ initLoad.Wh = 0 ∧ 1 ≤ 2 ∧ 2 ≤ 3 ∧
    ((iterTick 0 true 2 3 5 1 3 initLoad).Wh
        = ((3 : ℕ) : ℚ) * (2 * 3) / 3600 ∧
     (iterTick 0 true 2 3 5 1 2 initLoad).cost
       = (iterTick 0 true 2 3 5 1 2 initLoad).Wh / 1000 * 5) :=
  ⟨by norm_num, rfl, by norm_num, by norm_num,
   C4_energy_accumulation 0 1 2 3 5 initLoad (by norm_num) rfl 3 2
     (by norm_num) (by norm_num)⟩

/-- A state whose channels are ON with 2 seconds already accumulated. -/
def stC6 : SysState :=
  { L := fun _ => { initLoad with relay := true, onSecondsToday := 2 },
    unitPrice := 8, notifs := [] }

/-- C6: on a channel that is ON with seconds-on-today = lim − 1, a
`setLimit(id, lim)` command (lim > 0) does not itself switch the relay — it
is still ON immediately after the command, so no earlier shutoff happens —
and the very next tick forces it OFF. -/
theorem C6_limit_trips_exactly_next_tick (tc tt : ℕ) (env : Env)
    (st : SysState) (i : Fin 4) (msg : WSMsg) (lim : ℕ)
    (hcmd : msg.cmd = some "setLimit")
    (hid : msg.id = some ((i : ℕ) + 1 : ℤ)) (hsec : msg.seconds = some lim)
    (hpos : 0 < lim) (hrel : (st.L i).relay = true)
    (hcount : (st.L i).onSecondsToday = lim - 1) :
    ((handleWS tc msg st).1.L i).relay = true ∧
    ((tick tt env ((handleWS tc msg st).1)).L i).relay = false := by
  obtain ⟨c0, i0, b0, m0, s0, p0⟩ := msg
  simp only at hcmd hid hsec
  subst hcmd hid hsec
  rw [handleWS_setLimit_eq tc _ lim b0 m0 p0 st i (chIdx_fin i) hpos]
  constructor
  · simp [Function.update_same, hrel]
  · rw [tick_L]
    refine tickChannel_trip_off tt _ _ _ _ _ _ ?_ ?_ ?_
    · simp [Function.update_same, hrel]
    · simp [Function.update_same]
      omega
    · simp [Function.update_same, hcount]
      omega

/-- C6 (witness): channel 1 ON with 2 accumulated seconds, `setLimit(1, 3)`
at time 20, one tick at time 21. -/
theorem C6_limit_trips_exactly_next_tick_witness :
    ((handleWS 20 ⟨some "setLimit", some 1, none, none, some 3, none⟩
        stC6).1.L 0).relay = true ∧
    ((tick 21 envAbsent ((handleWS 20 ⟨some "setLimit", some 1, none, none,
        some 3, none⟩ stC6).1)).L 0).relay = false :=
  C6_limit_trips_exactly_next_tick 20 21 envAbsent stC6 0
    ⟨some "setLimit", some 1, none, none, some 3, none⟩ 3 rfl (by decide)
    rfl (by decide) (by decide) (by decide)

/-- C10: at boot every channel's usage limit is 43200 seconds (12 hours),
not 0 (disabled): with no persisted override, a channel switched ON and left
ON is still ON after any k < 43200 ticks and is auto-switched OFF at the
43200th tick. -/
theorem C10_boot_limit_43200 (k : ℕ) (hk : k < 43200) :
    initLoad.usageLimitSeconds = 43200 ∧ initLoad.usageLimitSeconds ≠ 0 ∧
    (iterTick 0 false 0 0 8 1 k ({ initLoad with relay := true })).relay
      = true ∧
    (iterTick 0 false 0 0 8 1 43200 ({ initLoad with relay := true })).relay
      = false := by
  have hsec : ({ initLoad with relay := true } : Load).onSecondsToday
      = 0 := rfl
  have hlim : ({ initLoad with relay := true } : Load).usageLimitSeconds
      = 43200 := rfl
  refine ⟨rfl, by decide, ?_, ?_⟩
  · exact (iterTick_running 0 false 0 0 8 1 k _ rfl rfl (by omega)).1
  · have h43 : (43200 : ℕ) = 43199 + 1 := by norm_num
    rw [h43, iterTick_succ_out]
    obtain ⟨r1, r2, r3, r4⟩ :=
      iterTick_running 0 false 0 0 8 1 43199 ({ initLoad with relay := true })
        rfl rfl (by omega)
    refine tickChannel_trip_off 0 false 0 0 8 1 _ r1 ?_ ?_
    · omega
    · omega

/-- C10 (witness): the boot-limit theorem at k = 0. -/
theorem C10_boot_limit_43200_witness :
    0 < 43200 ∧
    (initLoad.usageLimitSeconds = 43200 ∧ initLoad.usageLimitSeconds ≠ 0 ∧
     (iterTick 0 false 0 0 8 1 0 ({ initLoad with relay := true })).relay
       = true ∧
     (iterTick 0 false 0 0 8 1 43200
         ({ initLoad with relay := true })).relay = false) :=
  ⟨by decide, C10_boot_limit_43200 0 (by decide)⟩

/-- C9 (witness): channel 1 of `stTrip`: the limit trips at clock 10 leaving
the deadline armed, and the tick at clock 1000 emits the timer notification
on the already-OFF channel. -/
theorem C9_timer_check_runs_regardless_witness :
    0 < (stTrip.L 0).timerEndEpoch ∧
    (((tick 10 envAbsent stTrip).L 0).relay = false ∧
     ((tick 10 envAbsent stTrip).L 0).timerEndEpoch
       = (stTrip.L 0).timerEndEpoch ∧
     (1000, "Relay " ++ toString ((0 : ℕ) + 1) ++ " auto OFF by timer")
       ∈ (tick 1000 envAbsent (tick 10 envAbsent stTrip)).notifs) :=
  ⟨by decide,
   (C9_timer_check_runs_regardless 10 1000 envAbsent envAbsent stTrip 0
     (by decide)).2 (by decide) (by decide) (by decide) (by decide)
     (by decide)⟩
